import Mathlib

/-!
Shallow embedding of the ShipSegmentation annotation and rasterization core.

The source is a Python program: src/shipseg/utils/annotation.py defines the
bounding box model (corner form and center form, relative and absolute
coordinates, text parsing) and src/shipseg/data/preprocess/annotation_to_mask.py
rasterizes boxes into a single channel mask.

Python numbers are dynamically typed: integer arithmetic stays integer,
true division and any operation touching a float produce floats, and the
int(...) builtin truncates toward zero.  Whether a value is an int or a
float is observable (slice indices must be ints), so the embedding keeps
that distinction in the PyNum type; float arithmetic is idealized as exact
rational arithmetic.  Fallible code returns Except, mirroring the Python
exceptions by their message.
-/

set_option allowUnsafeReducibility true in
attribute [semireducible] Rat.mul Rat.inv Rat.add Rat.sub

/-- Model of a Python number: either an int or a float (idealized as a
rational). -/
inductive PyNum where
| i : ℤ → PyNum
| f : ℚ → PyNum
deriving DecidableEq, Repr

/-- Numeric value of a Python number. -/
def PyNum.val : PyNum → ℚ
| .i n => (n : ℚ)
| .f q => q

/-- Python addition: int when both operands are ints, float otherwise. -/
def PyNum.add (a b : PyNum) : PyNum :=
  match a, b with
  | .i m, .i n => .i (m + n)
  | _, _ => .f (a.val + b.val)

/-- Python subtraction: int when both operands are ints, float otherwise. -/
def PyNum.sub (a b : PyNum) : PyNum :=
  match a, b with
  | .i m, .i n => .i (m - n)
  | _, _ => .f (a.val - b.val)

/-- Python multiplication: int when both operands are ints, float otherwise. -/
def PyNum.mul (a b : PyNum) : PyNum :=
  match a, b with
  | .i m, .i n => .i (m * n)
  | _, _ => .f (a.val * b.val)

/-- Python true division: always a float. -/
def PyNum.div (a b : PyNum) : PyNum :=
  .f (a.val / b.val)

/-- Truncation toward zero, the semantics of the Python int(...) builtin. -/
def ratTrunc (q : ℚ) : ℤ :=
  if q < 0 then -(Int.floor (-q)) else Int.floor q

/-- The Python int(...) builtin applied to a number. -/
def pyInt (a : PyNum) : PyNum :=
  .i (ratTrunc a.val)

/-- Python comparison used by the source: 0 <= coordinate <= 1
(int and float compare by numeric value). -/
def inUnit (a : PyNum) : Bool :=
  decide ((0 : ℚ) ≤ a.val) && decide (a.val ≤ (1 : ℚ))

/-- Python equality between numbers (value comparison, 4 == 4.0 is True). -/
def PyNum.pyEq (a b : PyNum) : Bool :=
  decide (a.val = b.val)

/-- Corner form box from annotation.py, class BoundingBox: fields class_id,
min_x, max_x, min_y, max_y. -/
structure BoundingBox where
  class_id : PyNum
  min_x : PyNum
  max_x : PyNum
  min_y : PyNum
  max_y : PyNum
deriving DecidableEq, Repr

/-- Center form box from annotation.py, class CenteredBoundingBox: fields
class_id, center_x, center_y, width, height. -/
structure CenteredBoundingBox where
  class_id : PyNum
  center_x : PyNum
  center_y : PyNum
  width : PyNum
  height : PyNum
deriving DecidableEq, Repr

/-- BoundingBox.is_relative: every geometric field lies in the closed
interval from 0 to 1 (class_id is not checked). -/
def BoundingBox.is_relative (b : BoundingBox) : Bool :=
  inUnit b.min_x && inUnit b.max_x && inUnit b.min_y && inUnit b.max_y

/-- IBoundingBox.is_absolute: the negation of is_relative. -/
def BoundingBox.is_absolute (b : BoundingBox) : Bool :=
  !b.is_relative

/-- BoundingBox.to_absolute: when the box is not absolute, multiply the x
fields by img_width and the y fields by img_height and truncate with int(...);
otherwise return a field by field copy. -/
def BoundingBox.to_absolute (b : BoundingBox) (img_width img_height : ℤ) : BoundingBox :=
  if !b.is_absolute then
    ⟨b.class_id,
     pyInt (b.min_x.mul (.i img_width)),
     pyInt (b.max_x.mul (.i img_width)),
     pyInt (b.min_y.mul (.i img_height)),
     pyInt (b.max_y.mul (.i img_height))⟩
  else
    ⟨b.class_id, b.min_x, b.max_x, b.min_y, b.max_y⟩

/-- BoundingBox.to_relative: when the box is not relative, divide the x
fields by img_width and the y fields by img_height (true division);
otherwise return a field by field copy. -/
def BoundingBox.to_relative (b : BoundingBox) (img_width img_height : ℤ) : BoundingBox :=
  if !b.is_relative then
    ⟨b.class_id,
     b.min_x.div (.i img_width),
     b.max_x.div (.i img_width),
     b.min_y.div (.i img_height),
     b.max_y.div (.i img_height)⟩
  else
    ⟨b.class_id, b.min_x, b.max_x, b.min_y, b.max_y⟩

/-- BoundingBox.to_centered_bbox: center is the midpoint, size the extent. -/
def BoundingBox.to_centered_bbox (b : BoundingBox) : CenteredBoundingBox :=
  ⟨b.class_id,
   (b.min_x.add b.max_x).div (.i 2),
   (b.min_y.add b.max_y).div (.i 2),
   b.max_x.sub b.min_x,
   b.max_y.sub b.min_y⟩

/-- CenteredBoundingBox.is_relative: every geometric field lies in the
closed interval from 0 to 1 (class_id is not checked). -/
def CenteredBoundingBox.is_relative (c : CenteredBoundingBox) : Bool :=
  inUnit c.center_x && inUnit c.center_y && inUnit c.width && inUnit c.height

/-- IBoundingBox.is_absolute for the center form: negation of is_relative. -/
def CenteredBoundingBox.is_absolute (c : CenteredBoundingBox) : Bool :=
  !c.is_relative

/-- CenteredBoundingBox.to_absolute: scale by the image dimensions and
truncate when the box is not absolute, otherwise copy. -/
def CenteredBoundingBox.to_absolute (c : CenteredBoundingBox) (img_width img_height : ℤ) : CenteredBoundingBox :=
  if !c.is_absolute then
    ⟨c.class_id,
     pyInt (c.center_x.mul (.i img_width)),
     pyInt (c.center_y.mul (.i img_height)),
     pyInt (c.width.mul (.i img_width)),
     pyInt (c.height.mul (.i img_height))⟩
  else
    ⟨c.class_id, c.center_x, c.center_y, c.width, c.height⟩

/-- CenteredBoundingBox.to_relative: divide by the image dimensions when the
box is not relative, otherwise copy. -/
def CenteredBoundingBox.to_relative (c : CenteredBoundingBox) (img_width img_height : ℤ) : CenteredBoundingBox :=
  if !c.is_relative then
    ⟨c.class_id,
     c.center_x.div (.i img_width),
     c.center_y.div (.i img_height),
     c.width.div (.i img_width),
     c.height.div (.i img_height)⟩
  else
    ⟨c.class_id, c.center_x, c.center_y, c.width, c.height⟩

/-- CenteredBoundingBox.to_bbox: corners are center plus or minus half the
size on each axis. -/
def CenteredBoundingBox.to_bbox (c : CenteredBoundingBox) : BoundingBox :=
  ⟨c.class_id,
   c.center_x.sub (c.width.div (.i 2)),
   c.center_x.add (c.width.div (.i 2)),
   c.center_y.sub (c.height.div (.i 2)),
   c.center_y.add (c.height.div (.i 2))⟩

/-- Python dataclass equality for center boxes: field by field value
comparison. -/
def CenteredBoundingBox.pyEq (a b : CenteredBoundingBox) : Bool :=
  a.class_id.pyEq b.class_id && a.center_x.pyEq b.center_x &&
  a.center_y.pyEq b.center_y && a.width.pyEq b.width && a.height.pyEq b.height

/-- Python dataclass equality for corner boxes: field by field value
comparison. -/
def BoundingBox.pyEq (a b : BoundingBox) : Bool :=
  a.class_id.pyEq b.class_id && a.min_x.pyEq b.min_x && a.max_x.pyEq b.max_x &&
  a.min_y.pyEq b.min_y && a.max_y.pyEq b.max_y

/-- Splits a character list at every occurrence of the separator character,
the semantics of the Python str.split with an explicit separator. -/
def splitOnChar (sep : Char) (cs : List Char) : List (List Char) :=
  match cs with
  | [] => [[]]
  | d :: rest =>
    if d = sep then [] :: splitOnChar sep rest
    else
      match splitOnChar sep rest with
      | [] => [[d]]
      | g :: gs => (d :: g) :: gs

/-- Helper for whitespace splitting: cur is the current token, reversed. -/
def splitWsAux (cs : List Char) (cur : List Char) : List (List Char) :=
  match cs with
  | [] => if cur.isEmpty then [] else [cur.reverse]
  | d :: rest =>
    if d.isWhitespace then
      if cur.isEmpty then splitWsAux rest []
      else cur.reverse :: splitWsAux rest []
    else splitWsAux rest (d :: cur)

/-- The Python str.split with no argument: split on runs of whitespace,
discarding empty tokens. -/
def pySplit (s : String) : List String :=
  (splitWsAux s.toList []).map (fun cs => String.mk cs)

/-- The Python str.split on the newline character: adjacent separators and
leading or trailing separators yield empty strings. -/
def pySplitLines (s : String) : List String :=
  (splitOnChar (Char.ofNat 10) s.toList).map (fun cs => String.mk cs)

/-- Value of a run of decimal digits; none when a non digit occurs. -/
def digitsVal (cs : List Char) : Option ℕ :=
  cs.foldl
    (fun acc c =>
      match acc with
      | none => none
      | some n => if c.isDigit then some (10 * n + (c.toNat - 48)) else none)
    (some 0)

/-- Nonempty digit run parsed as a natural number. -/
def parseNatStr (cs : List Char) : Option ℕ :=
  if cs.isEmpty then none else digitsVal cs

/-- Strips a leading sign, returning whether the value is negated. -/
def splitSign (cs : List Char) : Bool × List Char :=
  match cs with
  | [] => (false, [])
  | c :: rest =>
    if c = Char.ofNat 45 then (true, rest)
    else if c = Char.ofNat 43 then (false, rest)
    else (false, cs)

/-- The Python int(...) builtin on a string: optional sign and decimal
digits. -/
def pyParseInt (s : String) : Option ℤ :=
  match splitSign s.toList with
  | (neg, ds) =>
    (parseNatStr ds).map (fun n => if neg then -(n : ℤ) else (n : ℤ))

/-- Powers of ten as rationals, by structural recursion. -/
def tenPow : ℕ → ℚ
| 0 => 1
| n + 1 => 10 * tenPow n

/-- The Python float(...) builtin on a plain decimal literal: optional sign,
integer part, optional fractional part (at least one digit overall). -/
def pyParseFloat (s : String) : Option ℚ :=
  match splitSign s.toList with
  | (neg, ds) =>
    let signed : ℚ → ℚ := fun q => if neg then -q else q
    match splitOnChar (Char.ofNat 46) ds with
    | [a] => (parseNatStr a).map (fun n => signed (n : ℚ))
    | [a, b] =>
      if a.isEmpty && b.isEmpty then none
      else
        let ipart : Option ℕ := if a.isEmpty then some 0 else parseNatStr a
        let fpart : Option ℚ :=
          if b.isEmpty then some 0
          else (parseNatStr b).map (fun n => (n : ℚ) / tenPow b.length)
        match ipart, fpart with
        | some ip, some fp => some (signed ((ip : ℚ) + fp))
        | _, _ => none
    | _ => none

/-- Error message for the Python ValueError raised by int(...) or float(...)
on a token that is not a numeric literal. -/
def literalErrorMsg (line : String) : String :=
  "ValueError: invalid literal in line " ++ line

/-- CenteredBoundingBox.from_str: split the line on whitespace; zero tokens
yield the None sentinel, any other token count different from 5 falls
through the bare return (also None); exactly 5 tokens parse as
int, float, float, float, float, raising ValueError on a bad literal. -/
def CenteredBoundingBox.from_str (centered_bbox_str : String) : Except String (Option CenteredBoundingBox) :=
  let bbox_data := pySplit centered_bbox_str
  if bbox_data.length = 0 then Except.ok none
  else if bbox_data.length ≠ 5 then Except.ok none
  else
    match bbox_data with
    | [t0, t1, t2, t3, t4] =>
      match pyParseInt t0, pyParseFloat t1, pyParseFloat t2, pyParseFloat t3, pyParseFloat t4 with
      | some cid, some cx, some cy, some w, some h =>
        Except.ok (some ⟨.i cid, .f cx, .f cy, .f w, .f h⟩)
      | _, _, _, _, _ => Except.error (literalErrorMsg centered_bbox_str)
    | _ => Except.ok none

/-- MASATIImageAnnotation.from_str on an already split list of lines: keep
every line that is not exactly the empty string and store the result of
CenteredBoundingBox.from_str for it, sentinel included. -/
def masati_from_lines (image_annotations : List String) : Except String (List (Option CenteredBoundingBox)) :=
  (image_annotations.filter (fun l => l != "")).mapM CenteredBoundingBox.from_str

/-- MASATIImageAnnotation.from_str on a single string: split on newline
characters first. -/
def masati_from_str (image_annotations : String) : Except String (List (Option CenteredBoundingBox)) :=
  masati_from_lines (pySplitLines image_annotations)

/-- Error message for the AttributeError raised when the stored sentinel
None reaches the to_bbox call of the annotations property. -/
def noneAttributeErrorMsg : String :=
  "AttributeError: NoneType object has no attribute to_bbox"

/-- MASATIImageAnnotation.annotations property: map every stored entry
through to_bbox; a stored None sentinel raises AttributeError. -/
def masati_annotations (raw : List (Option CenteredBoundingBox)) : Except String (List BoundingBox) :=
  raw.mapM
    (fun ob =>
      match ob with
      | some cb => Except.ok cb.to_bbox
      | none => Except.error noneAttributeErrorMsg)

/-- A mask buffer: a list of rows of 8 bit pixel values. -/
abbrev Mask := List (List ℕ)

/-- The numpy zeros buffer of shape (H, W). -/
def zerosMask (H W : ℕ) : Mask :=
  List.replicate H (List.replicate W 0)

/-- Resolution of one bound of a Python slice a:b against an axis length:
negative values count from the end, then the result is clamped to the
interval from 0 to the length. -/
def sliceBound (idx : ℤ) (len : ℕ) : ℕ :=
  let j := if idx < 0 then idx + (len : ℤ) else idx
  (min (max j 0) (len : ℤ)).toNat

/-- Paints the half open rectangle of rows ra to rb and columns ca to cb
with the value 255, leaving every other pixel unchanged. -/
def paintRect (m : Mask) (ra rb ca cb : ℕ) : Mask :=
  (List.range m.length).zipWith
    (fun r row =>
      if ra ≤ r ∧ r < rb then
        (List.range row.length).zipWith
          (fun c v => if ca ≤ c ∧ c < cb then 255 else v) row
      else row)
    m

/-- The numpy slice assignment mask of rows y0:y1 and columns x0:x1 set to
255, with Python slice resolution of each bound. -/
def sliceAssign (m : Mask) (H W : ℕ) (y0 y1 x0 x1 : ℤ) : Mask :=
  paintRect m (sliceBound y0 H) (sliceBound y1 H) (sliceBound x0 W) (sliceBound x1 W)

/-- Error message for the TypeError numpy raises when a slice index is a
float. -/
def sliceTypeErrorMsg : String :=
  "TypeError: slice indices must be integers"

/-- Annotation2Mask.create_mask for an image of H rows and W columns: start
from the zeros buffer, convert every annotation to corner form and then to
absolute coordinates with img_width W and img_height H, and assign 255 to
the slice of rows min_y:max_y and columns min_x:max_x.  A coordinate that is
still a float when it reaches the slice raises TypeError. -/
def create_mask (H W : ℕ) (raw : List (Option CenteredBoundingBox)) : Except String Mask :=
  match masati_annotations raw with
  | Except.error e => Except.error e
  | Except.ok boxes =>
    boxes.foldlM
      (fun mask bb =>
        let babs := bb.to_absolute (W : ℤ) (H : ℤ)
        match babs.min_y, babs.max_y, babs.min_x, babs.max_x with
        | .i y0, .i y1, .i x0, .i x1 => Except.ok (sliceAssign mask H W y0 y1 x0 x1)
        | _, _, _, _ => Except.error sliceTypeErrorMsg)
      (zerosMask H W)

/-- End to end: parse the annotation text and rasterize it against an image
of H rows and W columns. -/
def annotation_pipeline (H W : ℕ) (text : String) : Except String Mask :=
  match masati_from_str text with
  | Except.error e => Except.error e
  | Except.ok raw => create_mask H W raw

/-- Error message of the first validation check of Annotation2Mask. -/
def dimsErrorMsg : String :=
  "ValueError: found image with more than three dimensions"

/-- Error message of the second validation check of Annotation2Mask. -/
def channelsErrorMsg : String :=
  "ValueError: found image with more than three channels or unknown format"

/-- Error message numpy raises when transpose is given axes that do not
match the array rank. -/
def axesErrorMsg : String :=
  "ValueError: axes dont match array"

/-- Annotation2Mask post init check on the image shape: reject a rank above
3, reject a shape whose first and last axes are both different from 3, and
transpose a channel last buffer with axes (2, 0, 1); the transpose call
itself fails when the rank is not 3. -/
def Annotation2Mask.post_init (shape : List ℕ) : Except String (List ℕ) :=
  if shape.isEmpty then Except.error ("IndexError: tuple index out of range")
  else if 3 < shape.length then Except.error dimsErrorMsg
  else if shape.headD 0 ≠ 3 ∧ shape.getLastD 0 ≠ 3 then Except.error channelsErrorMsg
  else if shape.getLastD 0 = 3 then
    match shape with
    | [s0, s1, s2] => Except.ok [s2, s0, s1]
    | _ => Except.error axesErrorMsg
  else Except.ok shape

/-- Is the result one of the two explicit validation failures of the post
init check (the FormatError family of the specification)? -/
def isFormatError (r : Except String (List ℕ)) : Bool :=
  match r with
  | Except.error e => e == dimsErrorMsg || e == channelsErrorMsg
  | Except.ok _ => false

/-- Expected mask of the concrete scenario of the specification: a 50 by
100 buffer whose foreground is exactly rows 15 to 34 and columns 40 to 59. -/
def c5_expected_mask : Mask :=
  (List.range 50).map
    (fun r => (List.range 100).map
      (fun c => if 15 ≤ r ∧ r < 35 ∧ 40 ≤ c ∧ c < 60 then 255 else 0))

/-- A relative corner box with all geometric fields one half, used against
the round trip claim. -/
def c4_relative_box : BoundingBox :=
  ⟨.i 0, .f (1/2), .f (1/2), .f (1/2), .f (1/2)⟩

/-- An absolute corner box inside a 100 by 50 image, used as a round trip
witness. -/
def c4_absolute_box : BoundingBox :=
  ⟨.i 1, .i 0, .i 40, .i 0, .i 20⟩

/-- A relative center box whose center is nearer the origin than half its
width. -/
def c10_example_box : CenteredBoundingBox :=
  ⟨.i 0, .f (1/10), .f (1/2), .f (1/2), .f (1/2)⟩

/-! Helper lemmas about the numeric model. -/

@[simp] theorem PyNum.val_i (n : ℤ) : (PyNum.i n).val = (n : ℚ) := rfl

@[simp] theorem PyNum.val_f (q : ℚ) : (PyNum.f q).val = q := rfl

@[simp] theorem PyNum.val_add (a b : PyNum) : (a.add b).val = a.val + b.val := by
  cases a <;> cases b <;> simp [PyNum.add, PyNum.val]

@[simp] theorem PyNum.val_sub (a b : PyNum) : (a.sub b).val = a.val - b.val := by
  cases a <;> cases b <;> simp [PyNum.sub, PyNum.val]

@[simp] theorem PyNum.val_mul (a b : PyNum) : (a.mul b).val = a.val * b.val := by
  cases a <;> cases b <;> simp [PyNum.mul, PyNum.val]

@[simp] theorem PyNum.val_div (a b : PyNum) : (a.div b).val = a.val / b.val := rfl

theorem PyNum.pyEq_eq_true_iff (a b : PyNum) : a.pyEq b = true ↔ a.val = b.val := by
  simp [PyNum.pyEq]

theorem inUnit_eq_true_iff (a : PyNum) : inUnit a = true ↔ 0 ≤ a.val ∧ a.val ≤ 1 := by
  simp [inUnit]

theorem bb_is_relative_iff (b : BoundingBox) :
    b.is_relative = true ↔
      ((0 ≤ b.min_x.val ∧ b.min_x.val ≤ 1) ∧ (0 ≤ b.max_x.val ∧ b.max_x.val ≤ 1) ∧
       (0 ≤ b.min_y.val ∧ b.min_y.val ≤ 1) ∧ (0 ≤ b.max_y.val ∧ b.max_y.val ≤ 1)) := by
  simp [BoundingBox.is_relative, inUnit, Bool.and_eq_true, and_assoc]

theorem Centeredbb_is_relative_iff (c : CenteredBoundingBox) :
    c.is_relative = true ↔
      ((0 ≤ c.center_x.val ∧ c.center_x.val ≤ 1) ∧ (0 ≤ c.center_y.val ∧ c.center_y.val ≤ 1) ∧
       (0 ≤ c.width.val ∧ c.width.val ≤ 1) ∧ (0 ≤ c.height.val ∧ c.height.val ≤ 1)) := by
  simp [CenteredBoundingBox.is_relative, inUnit, Bool.and_eq_true, and_assoc]

theorem ratTrunc_of_nonneg (q : ℚ) (h : 0 ≤ q) : ratTrunc q = Int.floor q := by
  unfold ratTrunc
  rw [if_neg (not_lt.mpr h)]

theorem ratTrunc_err_of_nonneg (q : ℚ) (h : 0 ≤ q) : |((ratTrunc q : ℤ) : ℚ) - q| ≤ 1 := by
  rw [ratTrunc_of_nonneg q h]
  have h1 : ((Int.floor q : ℤ) : ℚ) ≤ q := Int.floor_le q
  have h2 : q < ((Int.floor q : ℤ) : ℚ) + 1 := Int.lt_floor_add_one q
  rw [abs_le]
  exact ⟨by linarith, by linarith⟩

/-! Claim theorems. -/

/-- C1: the claim says a line whose whitespace token count is neither 0 nor
5 makes CenteredBoundingBox.from_str fail with a ParseError naming the line.
The code instead falls through a bare return: the 3 token line yields the
same silent None as the genuinely blank line, contradicting the methods own
documented contract of raising ValueError on a non empty invalid line. -/
theorem C1_malformed_line_silent_none :
    CenteredBoundingBox.from_str "0 0.5 0.5" = Except.ok none ∧
    CenteredBoundingBox.from_str "" = Except.ok none := by
  exact ⟨rfl, rfl⟩

/-- C2: the claim says lines that are empty after trimming are skipped and
no sentinel is ever stored.  The code filters only the exactly empty string,
so a whitespace only line reaches the parser, produces the None sentinel,
and that None is stored in the sequence; the annotations property then
fails with AttributeError on it. -/
theorem C2_sentinel_stored :
    masati_from_lines ["0 0.5 0.5 0.2 0.4", " "] =
      Except.ok [some ⟨.i 0, .f (1/2), .f (1/2), .f (1/5), .f (2/5)⟩, none] ∧
    masati_annotations [some ⟨.i 0, .f (1/2), .f (1/2), .f (1/5), .f (2/5)⟩, none] =
      Except.error noneAttributeErrorMsg := by
  exact ⟨rfl, rfl⟩

/-- C3: the claim says a box whose absolute corner coordinates exceed the
image extent makes create_mask fail with a BoundsError.  There is no bounds
check in the code: such a box keeps float coordinates (it skips the int
conversion because it is classified absolute) and the slice assignment
fails with a TypeError about non integer slice indices instead.  Here the
line 0 50 50 20 20 against a 10 by 10 image yields the absolute corner box
(40.0, 60.0, 40.0, 60.0), far outside the extent, and the pipeline raises
TypeError. -/
theorem C3_out_of_bounds_type_error :
    annotation_pipeline 10 10 "0 50 50 20 20" = Except.error sliceTypeErrorMsg ∧
    ((⟨.i 0, .f 50, .f 50, .f 20, .f 20⟩ : CenteredBoundingBox).to_bbox).to_absolute 10 10 =
      ⟨.i 0, .f 40, .f 60, .f 40, .f 60⟩ := by
  exact ⟨rfl, rfl⟩

/-- C5: for an image of width 100 and height 50 and the single annotation
line 0 0.5 0.5 0.2 0.4, parsing, converting to corner form and to absolute
coordinates yields the corner box with min_x 40, max_x 60, min_y 15 and
max_y 35, and the rasterized mask is exactly 255 on rows 15 to 34 and
columns 40 to 59 and 0 elsewhere, with 400 foreground pixels. -/
theorem C5_concrete_scenario :
    annotation_pipeline 50 100 "0 0.5 0.5 0.2 0.4" = Except.ok c5_expected_mask ∧
    (CenteredBoundingBox.from_str "0 0.5 0.5 0.2 0.4").map
        (fun ob => ob.map (fun cb => cb.to_bbox.to_absolute 100 50)) =
      Except.ok (some ⟨.i 0, .i 40, .i 60, .i 15, .i 35⟩) ∧
    (c5_expected_mask.map (fun row => row.countP (fun v => v == 255))).sum = 400 := by
  exact ⟨rfl, rfl, rfl⟩

/-- C6: converting a center box to corner form and back, or a corner box to
center form and back, reproduces the original box exactly under Python
equality (exact arithmetic), with class_id preserved. -/
theorem C6_form_round_trip (c : CenteredBoundingBox) (b : BoundingBox) :
    (c.to_bbox.to_centered_bbox).pyEq c = true ∧
    (c.to_bbox.to_centered_bbox).class_id = c.class_id ∧
    (b.to_centered_bbox.to_bbox).pyEq b = true ∧
    (b.to_centered_bbox.to_bbox).class_id = b.class_id := by
  refine ⟨?_, rfl, ?_, rfl⟩
  · simp only [CenteredBoundingBox.pyEq, PyNum.pyEq_eq_true_iff, Bool.and_eq_true,
      CenteredBoundingBox.to_bbox, BoundingBox.to_centered_bbox,
      PyNum.val_add, PyNum.val_sub, PyNum.val_div, PyNum.val_i]
    refine ⟨⟨⟨⟨trivial, by ring⟩, by ring⟩, by ring⟩, by ring⟩
  · simp only [BoundingBox.pyEq, PyNum.pyEq_eq_true_iff, Bool.and_eq_true,
      CenteredBoundingBox.to_bbox, BoundingBox.to_centered_bbox,
      PyNum.val_add, PyNum.val_sub, PyNum.val_div, PyNum.val_i]
    refine ⟨⟨⟨⟨trivial, by ring⟩, by ring⟩, by ring⟩, by ring⟩

/-- C7: to_absolute on a box already classified absolute returns an equal
valued box, and to_relative on a box already classified relative returns an
equal valued box, for both concrete forms and every pair of image
dimensions. -/
theorem C7_idempotence (b : BoundingBox) (c : CenteredBoundingBox) (W H : ℤ) :
    (b.is_absolute = true → b.to_absolute W H = b) ∧
    (b.is_relative = true → b.to_relative W H = b) ∧
    (c.is_absolute = true → c.to_absolute W H = c) ∧
    (c.is_relative = true → c.to_relative W H = c) := by
  refine ⟨fun h => ?_, fun h => ?_, fun h => ?_, fun h => ?_⟩
  · simp [BoundingBox.to_absolute, h]
  · simp [BoundingBox.to_relative, h]
  · simp [CenteredBoundingBox.to_absolute, h]
  · simp [CenteredBoundingBox.to_relative, h]

/-- Witness for C7: a concrete absolute pixel box is returned unchanged by
to_absolute and a concrete relative box is returned unchanged by
to_relative, in both forms, at image dimensions 7 and 11. -/
theorem C7_idempotence_witness :
    (⟨.i 0, .i 5, .i 9, .i 5, .i 9⟩ : BoundingBox).to_absolute 7 11 =
      ⟨.i 0, .i 5, .i 9, .i 5, .i 9⟩ ∧
    (⟨.i 0, .f (1/4), .f (3/4), .f (1/4), .f (3/4)⟩ : BoundingBox).to_relative 7 11 =
      ⟨.i 0, .f (1/4), .f (3/4), .f (1/4), .f (3/4)⟩ ∧
    (⟨.i 0, .i 5, .i 5, .i 4, .i 4⟩ : CenteredBoundingBox).to_absolute 7 11 =
      ⟨.i 0, .i 5, .i 5, .i 4, .i 4⟩ ∧
    (⟨.i 0, .f (1/2), .f (1/2), .f (1/2), .f (1/2)⟩ : CenteredBoundingBox).to_relative 7 11 =
      ⟨.i 0, .f (1/2), .f (1/2), .f (1/2), .f (1/2)⟩ := by
  refine ⟨(C7_idempotence ⟨.i 0, .i 5, .i 9, .i 5, .i 9⟩
             ⟨.i 0, .i 5, .i 5, .i 4, .i 4⟩ 7 11).1 (by decide),
          (C7_idempotence ⟨.i 0, .f (1/4), .f (3/4), .f (1/4), .f (3/4)⟩
             ⟨.i 0, .i 5, .i 5, .i 4, .i 4⟩ 7 11).2.1 (by decide),
          (C7_idempotence ⟨.i 0, .i 5, .i 9, .i 5, .i 9⟩
             ⟨.i 0, .i 5, .i 5, .i 4, .i 4⟩ 7 11).2.2.1 (by decide),
          (C7_idempotence ⟨.i 0, .i 5, .i 9, .i 5, .i 9⟩
             ⟨.i 0, .f (1/2), .f (1/2), .f (1/2), .f (1/2)⟩ 7 11).2.2.2 (by decide)⟩

/-- C4 counterexample: the claim quantifies over every corner box and all
positive image dimensions and asserts the relative absolute round trip
stays within one unit per coordinate.  For the relative box with all
geometric fields one half and W = H = 100, to_relative is the identity and
to_absolute rescales to pixel coordinate 50, an error of 49.5 units. -/
theorem C4_counterexample :
    ¬ |((c4_relative_box.to_relative 100 100).to_absolute 100 100).min_x.val -
        c4_relative_box.min_x.val| ≤ 1 := by
  decide

/-- C4 amended: for a corner box classified absolute by the computed check
whose coordinates lie within 0 to W on the x axis and 0 to H on the y axis,
with W and H positive, the relative absolute round trip truncates each
coordinate toward zero, so it reproduces the box with per coordinate error
at most one unit and class_id untouched.  (Boxes classified relative are
instead rescaled to pixels, as the counterexample shows.) -/
theorem C4_round_trip_absolute (b : BoundingBox) (W H : ℤ)
    (hW : 0 < W) (hH : 0 < H) (habs : b.is_relative = false)
    (h1 : 0 ≤ b.min_x.val) (h2 : b.min_x.val ≤ (W : ℚ))
    (h3 : 0 ≤ b.max_x.val) (h4 : b.max_x.val ≤ (W : ℚ))
    (h5 : 0 ≤ b.min_y.val) (h6 : b.min_y.val ≤ (H : ℚ))
    (h7 : 0 ≤ b.max_y.val) (h8 : b.max_y.val ≤ (H : ℚ)) :
    (b.to_relative W H).to_absolute W H =
      ⟨b.class_id, .i (ratTrunc b.min_x.val), .i (ratTrunc b.max_x.val),
       .i (ratTrunc b.min_y.val), .i (ratTrunc b.max_y.val)⟩ ∧
    |((b.to_relative W H).to_absolute W H).min_x.val - b.min_x.val| ≤ 1 ∧
    |((b.to_relative W H).to_absolute W H).max_x.val - b.max_x.val| ≤ 1 ∧
    |((b.to_relative W H).to_absolute W H).min_y.val - b.min_y.val| ≤ 1 ∧
    |((b.to_relative W H).to_absolute W H).max_y.val - b.max_y.val| ≤ 1 := by
  have hWq : (0 : ℚ) < (W : ℚ) := by exact_mod_cast hW
  have hHq : (0 : ℚ) < (H : ℚ) := by exact_mod_cast hH
  have hrel : b.to_relative W H =
      ⟨b.class_id, b.min_x.div (.i W), b.max_x.div (.i W),
       b.min_y.div (.i H), b.max_y.div (.i H)⟩ := by
    simp [BoundingBox.to_relative, habs]
  have hrel2 : (b.to_relative W H).is_relative = true := by
    rw [hrel, bb_is_relative_iff]
    simp only [PyNum.val_div, PyNum.val_i]
    exact ⟨⟨div_nonneg h1 hWq.le, (div_le_one hWq).mpr h2⟩,
           ⟨div_nonneg h3 hWq.le, (div_le_one hWq).mpr h4⟩,
           ⟨div_nonneg h5 hHq.le, (div_le_one hHq).mpr h6⟩,
           ⟨div_nonneg h7 hHq.le, (div_le_one hHq).mpr h8⟩⟩
  have habs2 : (b.to_relative W H).is_absolute = false := by
    rw [BoundingBox.is_absolute, hrel2]
    rfl
  have key : (b.to_relative W H).to_absolute W H =
      ⟨b.class_id, .i (ratTrunc b.min_x.val), .i (ratTrunc b.max_x.val),
       .i (ratTrunc b.min_y.val), .i (ratTrunc b.max_y.val)⟩ := by
    simp only [BoundingBox.to_absolute, habs2, Bool.not_false, if_true]
    rw [hrel]
    simp only [PyNum.div, PyNum.mul, pyInt, PyNum.val_f, PyNum.val_i]
    rw [div_mul_cancel₀ _ (ne_of_gt hWq), div_mul_cancel₀ _ (ne_of_gt hWq),
        div_mul_cancel₀ _ (ne_of_gt hHq), div_mul_cancel₀ _ (ne_of_gt hHq)]
  refine ⟨key, ?_, ?_, ?_, ?_⟩ <;> rw [key]
  · exact ratTrunc_err_of_nonneg b.min_x.val h1
  · exact ratTrunc_err_of_nonneg b.max_x.val h3
  · exact ratTrunc_err_of_nonneg b.min_y.val h5
  · exact ratTrunc_err_of_nonneg b.max_y.val h7

/-- Witness for C4: the concrete absolute box with corners 0, 40, 0, 20 in
a 100 by 50 image round trips exactly. -/
theorem C4_round_trip_witness :
    (c4_absolute_box.to_relative 100 50).to_absolute 100 50 = c4_absolute_box ∧
    |((c4_absolute_box.to_relative 100 50).to_absolute 100 50).min_x.val -
      c4_absolute_box.min_x.val| ≤ 1 := by
  have h := C4_round_trip_absolute c4_absolute_box 100 50 (by decide) (by decide)
    (by decide) (by decide) (by decide) (by decide) (by decide) (by decide)
    (by decide) (by decide) (by decide)
  refine ⟨?_, h.2.1⟩
  rw [h.1]
  decide

theorem isFormatError_ok (l : List ℕ) : isFormatError (Except.ok l) = false := rfl

theorem isFormatError_dims : isFormatError (Except.error dimsErrorMsg) = true := by decide

theorem isFormatError_channels : isFormatError (Except.error channelsErrorMsg) = true := by decide

theorem isFormatError_axes : isFormatError (Except.error axesErrorMsg) = false := by decide

/-- C9 counterexample: a 2 dimensional buffer of shape (5, 3) triggers
neither validation condition (rank is not above 3 and the last axis has
size 3), so the claim asserts construction succeeds; instead the transpose
step fails with an axes mismatch error. -/
theorem C9_counterexample :
    Annotation2Mask.post_init [5, 3] = Except.error axesErrorMsg := by
  rfl

/-- C9 amended: for a nonempty shape, the post init check fails with one of
its two FormatError messages exactly when the rank exceeds 3 or neither the
first nor the last axis has size 3; a 3 dimensional channel last buffer is
normalized to channel first by the (2, 0, 1) transpose; a buffer of rank at
most 3 whose last axis is not 3 (hence whose first axis is 3) is kept
unchanged; but a rank 1 or rank 2 buffer whose last axis has size 3 fails
in the transpose with an axes mismatch error instead of succeeding. -/
theorem C9_post_init_characterization (shape : List ℕ) (hne : shape ≠ []) :
    (isFormatError (Annotation2Mask.post_init shape) = true ↔
      (3 < shape.length ∨ (shape.headD 0 ≠ 3 ∧ shape.getLastD 0 ≠ 3))) ∧
    (∀ a b : ℕ, Annotation2Mask.post_init [a, b, 3] = Except.ok [3, a, b]) ∧
    (shape.length ≤ 3 → shape.getLastD 0 ≠ 3 → shape.headD 0 = 3 →
      Annotation2Mask.post_init shape = Except.ok shape) ∧
    (shape.getLastD 0 = 3 → shape.length < 3 →
      Annotation2Mask.post_init shape = Except.error axesErrorMsg) := by
  refine ⟨?_, ?_, ?_, ?_⟩
  · rcases shape with _ | ⟨a, _ | ⟨b, _ | ⟨c, _ | ⟨d, rest⟩⟩⟩⟩
    · exact absurd rfl hne
    · by_cases ha : a = 3
      · subst ha
        decide
      · simp [Annotation2Mask.post_init, ha, isFormatError_channels]
    · by_cases hb : b = 3
      · subst hb
        by_cases ha : a = 3
        · subst ha
          decide
        · simp [Annotation2Mask.post_init, ha, isFormatError_axes]
      · by_cases ha : a = 3
        · subst ha
          simp [Annotation2Mask.post_init, hb, isFormatError_ok]
        · simp [Annotation2Mask.post_init, ha, hb, isFormatError_channels]
    · by_cases hc : c = 3
      · subst hc
        simp [Annotation2Mask.post_init, isFormatError_ok]
      · by_cases ha : a = 3
        · subst ha
          simp [Annotation2Mask.post_init, hc, isFormatError_ok]
        · simp [Annotation2Mask.post_init, ha, hc, isFormatError_channels]
    · have hlen : 3 < (a :: b :: c :: d :: rest).length := by
        simp only [List.length_cons]
        omega
      simp [Annotation2Mask.post_init, hlen, isFormatError_dims]
  · intro a b
    simp [Annotation2Mask.post_init]
  · intro hlen hlast hhead
    rcases shape with _ | ⟨a, _ | ⟨b, _ | ⟨c, _ | ⟨d, rest⟩⟩⟩⟩
    · exact absurd rfl hne
    · exact absurd hhead hlast
    · have ha : a = 3 := hhead
      have hb3 : b ≠ 3 := hlast
      subst ha
      simp [Annotation2Mask.post_init, hb3]
    · have ha : a = 3 := hhead
      have hc3 : c ≠ 3 := hlast
      subst ha
      simp [Annotation2Mask.post_init, hc3]
    · exfalso
      rw [List.length_cons, List.length_cons, List.length_cons, List.length_cons] at hlen
      omega
  · intro hlast hlen
    rcases shape with _ | ⟨a, _ | ⟨b, _ | ⟨c, _ | ⟨d, rest⟩⟩⟩⟩
    · exact absurd rfl hne
    · have ha : a = 3 := hlast
      subst ha
      rfl
    · have hb : b = 3 := hlast
      subst hb
      simp [Annotation2Mask.post_init]
    · exact absurd hlen (by simp)
    · exfalso
      rw [List.length_cons, List.length_cons, List.length_cons, List.length_cons] at hlen
      omega

/-- Witness for C9: a channel last shape (2, 7, 3) is accepted and
normalized to (3, 2, 7). -/
theorem C9_post_init_witness :
    Annotation2Mask.post_init [2, 7, 3] = Except.ok [3, 2, 7] :=
  (C9_post_init_characterization [2, 7, 3] (by decide)).2.1 2 7

/-- C10: a relative center box whose center is closer to the origin than
half its size on some axis yields, through to_bbox, a corner box with a
negative (and non integer, hence non pixel) coordinate on that axis; that
corner box is classified absolute by the computed check, and to_absolute
returns it unchanged for every pair of image dimensions. -/
theorem C10_negative_corner (c : CenteredBoundingBox)
    (hrel : c.is_relative = true)
    (hlt : c.center_x.val < c.width.val / 2 ∨ c.center_y.val < c.height.val / 2) :
    ((c.to_bbox.min_x.val < 0 ∧ ∀ n : ℤ, c.to_bbox.min_x.val ≠ (n : ℚ)) ∨
     (c.to_bbox.min_y.val < 0 ∧ ∀ n : ℤ, c.to_bbox.min_y.val ≠ (n : ℚ))) ∧
    c.to_bbox.is_relative = false ∧
    c.to_bbox.is_absolute = true ∧
    ∀ W H : ℤ, c.to_bbox.to_absolute W H = c.to_bbox := by
  obtain ⟨⟨hcx0, hcx1⟩, ⟨hcy0, hcy1⟩, ⟨hw0, hw1⟩, ⟨hh0, hh1⟩⟩ :=
    (Centeredbb_is_relative_iff c).mp hrel
  have hminx : c.to_bbox.min_x.val = c.center_x.val - c.width.val / 2 := by
    simp [CenteredBoundingBox.to_bbox]
  have hminy : c.to_bbox.min_y.val = c.center_y.val - c.height.val / 2 := by
    simp [CenteredBoundingBox.to_bbox]
  have hneg : c.to_bbox.min_x.val < 0 ∨ c.to_bbox.min_y.val < 0 := by
    rcases hlt with h | h
    · exact Or.inl (by rw [hminx]; linarith)
    · exact Or.inr (by rw [hminy]; linarith)
  have hfirst :
      (c.to_bbox.min_x.val < 0 ∧ ∀ n : ℤ, c.to_bbox.min_x.val ≠ (n : ℚ)) ∨
      (c.to_bbox.min_y.val < 0 ∧ ∀ n : ℤ, c.to_bbox.min_y.val ≠ (n : ℚ)) := by
    rcases hlt with h | h
    · refine Or.inl ⟨by rw [hminx]; linarith, ?_⟩
      intro n hn
      rw [hminx] at hn
      have hlow : (-1 : ℚ) / 2 ≤ (n : ℚ) := by rw [← hn]; linarith
      have hhigh : (n : ℚ) < 0 := by rw [← hn]; linarith
      have hn0 : n < 0 := by exact_mod_cast hhigh
      have hn1 : (n : ℚ) ≤ -1 := by exact_mod_cast (by omega : n ≤ -1)
      linarith
    · refine Or.inr ⟨by rw [hminy]; linarith, ?_⟩
      intro n hn
      rw [hminy] at hn
      have hlow : (-1 : ℚ) / 2 ≤ (n : ℚ) := by rw [← hn]; linarith
      have hhigh : (n : ℚ) < 0 := by rw [← hn]; linarith
      have hn0 : n < 0 := by exact_mod_cast hhigh
      have hn1 : (n : ℚ) ≤ -1 := by exact_mod_cast (by omega : n ≤ -1)
      linarith
  have hnotrel : c.to_bbox.is_relative = false := by
    cases hb : c.to_bbox.is_relative
    · rfl
    · exfalso
      obtain ⟨⟨hx0, _⟩, _, ⟨hy0, _⟩, _⟩ := (bb_is_relative_iff _).mp hb
      rcases hneg with h | h <;> linarith
  have hab : c.to_bbox.is_absolute = true := by
    rw [BoundingBox.is_absolute, hnotrel]
    rfl
  refine ⟨hfirst, hnotrel, hab, fun W H => ?_⟩
  simp [BoundingBox.to_absolute, hab]

/-- Witness for C10: the relative center box with center_x one tenth and
width one half has a corner box that is classified absolute and is left
unchanged by to_absolute at dimensions 640 and 480. -/
theorem C10_negative_corner_witness :
    c10_example_box.to_bbox.is_absolute = true ∧
    c10_example_box.to_bbox.to_absolute 640 480 = c10_example_box.to_bbox := by
  have h := C10_negative_corner c10_example_box (by decide) (Or.inl (by decide))
  exact ⟨h.2.2.1, h.2.2.2 640 480⟩

/-- C8: for both concrete box forms, is_relative holds exactly when every
geometric field lies in the closed interval from 0 to 1 (class_id not
consulted), is_absolute always equals the negation of is_relative, and a
box whose fields are all 0 or 1, such as a degenerate absolute pixel box,
is classified as relative. -/
theorem C8_is_relative_characterization :
    (∀ b : BoundingBox,
        (b.is_relative = true ↔
          ((0 ≤ b.min_x.val ∧ b.min_x.val ≤ 1) ∧ (0 ≤ b.max_x.val ∧ b.max_x.val ≤ 1) ∧
           (0 ≤ b.min_y.val ∧ b.min_y.val ≤ 1) ∧ (0 ≤ b.max_y.val ∧ b.max_y.val ≤ 1))) ∧
        b.is_absolute = !b.is_relative) ∧
    (∀ c : CenteredBoundingBox,
        (c.is_relative = true ↔
          ((0 ≤ c.center_x.val ∧ c.center_x.val ≤ 1) ∧ (0 ≤ c.center_y.val ∧ c.center_y.val ≤ 1) ∧
           (0 ≤ c.width.val ∧ c.width.val ≤ 1) ∧ (0 ≤ c.height.val ∧ c.height.val ≤ 1))) ∧
        c.is_absolute = !c.is_relative) ∧
    BoundingBox.is_relative ⟨.i 7, .i 0, .i 1, .i 0, .i 1⟩ = true := by
  exact ⟨fun b => ⟨bb_is_relative_iff b, rfl⟩,
         fun c => ⟨Centeredbb_is_relative_iff c, rfl⟩, by decide⟩
